import Mathlib

/-!
Shallow embedding of `src/index.ts` of koishi-plugin-pixiv-parse.

The plugin has three layers, each modelled below:
  * `PixivService` — the credential manager and gallery client
    (`_refreshAccessToken`, `_request`, `getArtworkDetail`,
    `downloadImage`, `getUserDetail`, `getUserIllusts`);
  * the output renderer (`createPdfFile`, `handlePixivRequest`);
  * the subscription tracker (`checkAndPushUpdates` and the `ready`
    initialisation pass).

External collaborators (the HTTP stack, the sharp image library, the
database, the delivery bot) are modelled as environment records of
pure functions; the state the service mutates (the access token, the
database table) is threaded explicitly.
-/

namespace PixivParse

/-- Case-insensitive-free list containment: `pat` occurs as a contiguous
segment of `s`.  Used to model the regex test
`/invalid_grant|invalid_token/i.test(errorMsg)`. -/
def startsWithChars : List Char → List Char → Bool
  | [], _ => true
  | _ :: _, [] => false
  | a :: as, b :: bs => a == b && startsWithChars as bs

/-- Whether `pat` is a contiguous infix of `s` (both as char lists). -/
def containsChars (pat : List Char) : List Char → Bool
  | [] => startsWithChars pat []
  | b :: bs => startsWithChars pat (b :: bs) || containsChars pat bs

/-- ASCII lower-casing of one character (the `i` regex flag only has to
act on the ASCII letters of `invalid_grant` / `invalid_token`). -/
def lowerChar (c : Char) : Char :=
  if 'A' ≤ c && c ≤ 'Z' then Char.ofNat (c.toNat + 32) else c

/-- Whether `pat` occurs inside `s`, comparing case-insensitively (both sides are
lower-cased first), modelling a case-insensitive regex alternative. -/
def containsCI (pat s : String) : Bool :=
  containsChars (pat.toList.map lowerChar) (s.toList.map lowerChar)

/-- The data the code reads off a thrown HTTP error:
`error.response?.status` and `error.response?.data?.error?.message`. -/
structure HttpError where
  status : Option Nat
  message : Option String
  deriving Repr, DecidableEq

/-- Models `const errorMsg = error.response?.data?.error?.message || ''`. -/
def errorMsg (e : HttpError) : String := e.message.getD ""

/-- The test guarding the refresh-and-retry path in `_request`:
`error.response?.status === 400 && /invalid_grant|invalid_token/i.test(errorMsg)`. -/
def isInvalidTokenError (e : HttpError) : Bool :=
  e.status == some 400 &&
    (containsCI "invalid_grant" (errorMsg e) || containsCI "invalid_token" (errorMsg e))

/-- Errors that can escape `_request`: a thrown HTTP error, or the
`new Error('无法获取或刷新 Access Token。')` thrown when the initial
refresh fails. -/
inductive ReqError where
  | http (e : HttpError)
  | tokenUnavailable
  deriving Repr, DecidableEq

/-- Outcome of one call to the OAuth token endpoint inside
`_refreshAccessToken`: a response carrying `access_token`, a response
without one, or a thrown error. -/
inductive RefreshOutcome where
  | ok (token : String)
  | noToken
  | thrown
  deriving Repr, DecidableEq

/-- One artwork as returned by the API: the fields `handlePixivRequest`
and the subscription loop read (`id`, `title`, `user.name`, `tags`,
`x_restrict`, `meta_pages`/`meta_single_page` image urls). -/
structure Illust where
  id : Nat
  title : String
  userName : String
  tags : List String
  xRestrict : Nat
  metaPages : List String
  metaSinglePage : String
  deriving Repr, DecidableEq

/-- A successful JSON response body of an authorized request; the
accessors project the fields they need (`response.illust`,
`response.illusts`, or the whole response for `getUserDetail`). -/
structure Response where
  illust : Option Illust
  illusts : Option (List Illust)
  deriving Repr, DecidableEq

/-- A downloaded image buffer, with the pixel dimensions sharp's
`metadata()` would report for it and its encoded bytes. -/
structure Img where
  width : Nat
  height : Nat
  bytes : List Nat
  deriving Repr, DecidableEq

/-- The configuration fields the modelled code paths read. -/
inductive R18Action where
  | block | warn | send
  deriving Repr, DecidableEq

inductive PdfSendMode where
  | buffer | file
  deriving Repr, DecidableEq

structure Subscription where
  uid : String
  name : String
  channelIds : List String
  deriving Repr, DecidableEq

structure Config where
  refreshToken : Option String
  sendTags : Bool
  sendAuthor : Bool
  sendLinkWithCommand : Bool
  r18Action : R18Action
  forwardThreshold : Nat
  pdfThreshold : Nat
  autoPdfForR18 : Bool
  pdfPassword : Option String
  pdfSendMode : PdfSendMode
  enableCompression : Bool
  compressionQuality : Nat
  enableSubscription : Bool
  subscriptions : List Subscription
  pushBotPlatform : Option String
  deriving Repr, DecidableEq

/-- The HTTP environment of `PixivService`: the outcome of the n-th call
to the token endpoint, the outcome of the n-th authorized GET, and the
outcome of the (unauthenticated) CDN download of a given url. -/
structure PixivEnv where
  refreshOutcome : Nat → RefreshOutcome
  requestOutcome : Nat → Except HttpError Response
  downloadRaw : String → Except HttpError (List Nat)

/-- The mutable state of `PixivService`: the held `accessToken`, plus
counters of how many token exchanges and authorized GETs have been
performed (indices into the environment's outcome streams). -/
structure SvcState where
  accessToken : Option String
  refreshCount : Nat
  requestCount : Nat
  deriving Repr, DecidableEq

/-- Model of `PixivService._refreshAccessToken`.  Returns `false` without touching
anything when no refresh token is configured; on a response with an
`access_token` stores it and returns `true`; on a token-less response
returns `false` leaving the held token as it was; on a thrown error sets
`this.accessToken = null` and returns `false`. -/
def refreshAccessToken (cfg : Config) (env : PixivEnv) (st : SvcState) :
    Bool × SvcState :=
  match cfg.refreshToken with
  | none => (false, st)
  | some _ =>
    let o := env.refreshOutcome st.refreshCount
    let st1 : SvcState := { st with refreshCount := st.refreshCount + 1 }
    match o with
    | .ok t => (true, { st1 with accessToken := some t })
    | .noToken => (false, st1)
    | .thrown => (false, { st1 with accessToken := none })

/-- One `makeRequest()` call: consumes the next authorized-GET outcome. -/
def makeRequest (env : PixivEnv) (st : SvcState) :
    Except HttpError Response × SvcState :=
  (env.requestOutcome st.requestCount,
   { st with requestCount := st.requestCount + 1 })

/-- Model of `PixivService._request`.  Ensures a token (throwing
`tokenUnavailable` if the initial refresh fails), performs the request,
and on an HTTP 400 invalid_grant/invalid_token failure refreshes once
and, if the refresh succeeded, resends the request once; any other
failure (and the resend's failure) is rethrown to the caller. -/
def request (cfg : Config) (env : PixivEnv) (st : SvcState) :
    Except ReqError Response × SvcState :=
  let ensure : Bool × SvcState :=
    if st.accessToken.isNone then refreshAccessToken cfg env st else (true, st)
  match ensure with
  | (false, st1) => (.error .tokenUnavailable, st1)
  | (true, st1) =>
    let (r1, st2) := makeRequest env st1
    match r1 with
    | .ok resp => (.ok resp, st2)
    | .error e =>
      if isInvalidTokenError e then
        let (ok, st3) := refreshAccessToken cfg env st2
        if ok then
          let (r2, st4) := makeRequest env st3
          match r2 with
          | .ok resp => (.ok resp, st4)
          | .error e2 => (.error (.http e2), st4)
        else (.error (.http e), st3)
      else (.error (.http e), st2)

/-- Model of `PixivService.getArtworkDetail`: `try { ... return response.illust }
catch { return null }`.  The `Except` layer records whether an error
escapes the accessor (the catch maps every error to `.ok none`). -/
def getArtworkDetail (cfg : Config) (env : PixivEnv) (st : SvcState) :
    Except ReqError (Option Illust) × SvcState :=
  let (r, st1) := request cfg env st
  match r with
  | .ok resp => (.ok resp.illust, st1)
  | .error _ => (.ok none, st1)

/-- Model of `PixivService.getUserDetail`: returns the whole response, or null. -/
def getUserDetail (cfg : Config) (env : PixivEnv) (st : SvcState) :
    Except ReqError (Option Response) × SvcState :=
  let (r, st1) := request cfg env st
  match r with
  | .ok resp => (.ok (some resp), st1)
  | .error _ => (.ok none, st1)

/-- Model of `PixivService.getUserIllusts`: returns `response.illusts`, or null. -/
def getUserIllusts (cfg : Config) (env : PixivEnv) (st : SvcState) :
    Except ReqError (Option (List Illust)) × SvcState :=
  let (r, st1) := request cfg env st
  match r with
  | .ok resp => (.ok resp.illusts, st1)
  | .error _ => (.ok none, st1)

/-- Model of `PixivService.downloadImage`: an unauthenticated GET of the image
url; any thrown error is caught and `null` returned. -/
def downloadImage (env : PixivEnv) (url : String) :
    Except HttpError (Option (List Nat)) :=
  match env.downloadRaw url with
  | .ok bytes => .ok (some bytes)
  | .error _ => .ok none

/-! ## Output renderer: `createPdfFile` and `handlePixivRequest` -/

/-- One PDF page built by `recipe.createPage(metadata.width,
metadata.height).image(tempImagePath, ...)`: the page dimensions and the
bytes of the image file placed on it. -/
structure PdfPage where
  width : Nat
  height : Nat
  imageBytes : List Nat
  deriving Repr, DecidableEq

/-- The finished PDF document: its pages in creation order, and the
password applied by `recipe.encrypt` when `config.pdfPassword` is set
(used uniformly as user and owner password). -/
structure PdfDoc where
  pages : List PdfPage
  password : Option String
  deriving Repr, DecidableEq

/-- The environment of the renderer: the result of
`pixiv.getArtworkDetail` per artwork id, the result of
`pixiv.downloadImage` per url, and sharp's JPEG encoding (the effect of
writing a buffer out to a `.jpg` file and reading it back) as a
function of the quality and the input image. -/
structure RenderEnv where
  artworkDetail : Nat → Option Illust
  download : String → Option Img
  jpegEnc : Nat → Img → Img

/-- The JPEG quality sharp uses when `toFile` infers JPEG output from
the `.jpg` extension and no explicit `.jpeg({ quality })` option was
set on the pipeline. -/
def sharpDefaultJpegQuality : Nat := 80

/-- Model of `createPdfFile(illust, buffers)`.  For each buffer in
order: pipe it through sharp and write it to `${index + 1}.jpg` — the
`.jpg` extension makes `toFile` JPEG-encode EVERY buffer, at
`config.compressionQuality` when `config.enableCompression` set the
explicit `.jpeg({ quality })` option, and at sharp's default quality
otherwise — then read the written file's `metadata()` and create one
page of exactly those dimensions carrying that file.  Finally encrypt
with `config.pdfPassword` when set. -/
def createPdfFile (cfg : Config) (jpegEnc : Nat → Img → Img)
    (buffers : List Img) : PdfDoc :=
  { pages := buffers.map (fun b =>
      let processed :=
        if cfg.enableCompression then jpegEnc cfg.compressionQuality b
        else jpegEnc sharpDefaultJpegQuality b
      { width := processed.width, height := processed.height,
        imageBytes := processed.bytes })
    password := cfg.pdfPassword }

/-- The `source` argument of `handlePixivRequest`. -/
inductive Source where
  | command | middleware
  deriving Repr, DecidableEq

/-- The value `handlePixivRequest` resolves to, up to message markup:
`silentNone` is the `null` of the subscription path, `reply` the quoted
text replies, `pdfMsg` the `[h('p', textInfo), h.file(...)]` pair,
`forwardMsg` the single `h('figure', {}, allContentNodes)` bundle, and
`plainMsg` the flat `allContentNodes` list. -/
inductive PixivResult where
  | silentNone
  | reply (msg : String)
  | pdfMsg (text : String) (doc : PdfDoc) (mode : PdfSendMode)
  | forwardMsg (text : String) (images : List Img)
  | plainMsg (text : String) (images : List Img)
  deriving Repr, DecidableEq

/-- The `textInfo` string built in `handlePixivRequest`, line by line. -/
def buildTextInfo (cfg : Config) (illust : Illust) (isSubscription : Bool)
    (source : Source) (pid : Nat) : String :=
  (if isSubscription then "[" ++ illust.userName ++ " 的作品更新]\n" else "")
    ++ "[标题] " ++ illust.title
    ++ (if cfg.sendAuthor then "\n[作者] " ++ illust.userName else "")
    ++ (if cfg.sendTags && illust.tags.length > 0 then
          "\n[标签] " ++ String.intercalate ", " illust.tags else "")
    ++ (if illust.xRestrict > 0 then "\n[警告] 本作品为 R-18/R-18G 内容" else "")
    ++ (if source == Source.command && cfg.sendLinkWithCommand then
          "\n[源链接] https://www.pixiv.net/artworks/" ++ Nat.repr pid else "")

/-- The image urls of an artwork: `meta_pages[*].image_urls.original`
when `meta_pages` is non-empty, else `[meta_single_page.original_image_url]`. -/
def illustImageUrls (illust : Illust) : List String :=
  if illust.metaPages.length > 0 then illust.metaPages
  else [illust.metaSinglePage]

/-- A run of `handlePixivRequest`, instrumented with the buffers the run
actually downloaded (empty when an early return fires before the
download stage). -/
structure RenderRun where
  result : PixivResult
  downloaded : List Img
  deriving Repr, DecidableEq

/-- Models `const shouldCreatePdf = (config.autoPdfForR18 && isR18) ||
(config.pdfThreshold > 0 && imageCount >= config.pdfThreshold)`. -/
def shouldCreatePdf (cfg : Config) (isR18 : Bool) (imageCount : Nat) : Bool :=
  (cfg.autoPdfForR18 && isR18)
    || (cfg.pdfThreshold > 0 && imageCount ≥ cfg.pdfThreshold)

/-- Models `const platform = isSubscription ? config.pushBotPlatform :
session?.platform`. -/
def forwardPlatform (cfg : Config) (isSubscription : Bool)
    (sessionPlatform : Option String) : Option String :=
  if isSubscription then cfg.pushBotPlatform else sessionPlatform

/-- Models `['qq', 'onebot'].includes(platform)`. -/
def isForwardCapable (p : Option String) : Bool :=
  p == some "qq" || p == some "onebot"

/-- The tail of `handlePixivRequest` once the image buffers are in
hand: PDF mode, else merged-forward when over threshold on a capable
platform, else the plain node list. -/
def renderLoaded (cfg : Config) (jpegEnc : Nat → Img → Img) (illust : Illust)
    (isSubscription : Bool) (source : Source) (pid : Nat)
    (sessionPlatform : Option String) (imageBuffers : List Img) : PixivResult :=
  let imageCount := imageBuffers.length
  let textInfo := buildTextInfo cfg illust isSubscription source pid
  if shouldCreatePdf cfg (decide (illust.xRestrict > 0)) imageCount then
    .pdfMsg textInfo (createPdfFile cfg jpegEnc imageBuffers) cfg.pdfSendMode
  else if cfg.forwardThreshold > 0 && imageCount ≥ cfg.forwardThreshold
      && isForwardCapable (forwardPlatform cfg isSubscription sessionPlatform) then
    .forwardMsg textInfo imageBuffers
  else
    .plainMsg textInfo imageBuffers

/-- Model of `handlePixivRequest(session, id, source, isSubscription)`.  In
order: fetch detail (null ⇒ not-found reply / silent null); R-18 block
and warn gates; download every image url in order, dropping failures;
all-failed gate; build `textInfo`; PDF mode when
`(autoPdfForR18 && isR18) || (pdfThreshold > 0 && imageCount >= pdfThreshold)`;
else the merged-forward bundle when
`forwardThreshold > 0 && imageCount >= forwardThreshold` and the
delivery platform (the push bot's in subscription mode, the session's
otherwise) is `qq` or `onebot`; else the plain nodes list. -/
def handlePixivRequest (cfg : Config) (env : RenderEnv) (pid : Nat)
    (source : Source) (isSubscription : Bool)
    (sessionPlatform : Option String) : RenderRun :=
  match env.artworkDetail pid with
  | none =>
    ⟨if isSubscription then .silentNone else .reply "找不到该 ID 对应的插画作品。", []⟩
  | some illust =>
    if decide (illust.xRestrict > 0) && cfg.r18Action == R18Action.block then
      ⟨if isSubscription then .silentNone else .reply "根据配置，已屏蔽 R-18 作品。", []⟩
    else if decide (illust.xRestrict > 0) && cfg.r18Action == R18Action.warn
        && !isSubscription then
      ⟨.reply ("[警告] 该作品为 R-18/R-18G 内容！\n标题: " ++ illust.title
        ++ "\n作者: " ++ illust.userName), []⟩
    else
      let imageBuffers := (illustImageUrls illust).filterMap env.download
      if imageBuffers.length == 0 then
        ⟨if isSubscription then .silentNone else .reply "所有图片都下载失败了，无法发送。",
         imageBuffers⟩
      else
        ⟨renderLoaded cfg env.jpegEnc illust isSubscription source pid
           sessionPlatform imageBuffers, imageBuffers⟩

/-! ## Subscription tracker: `checkAndPushUpdates` and the ready pass -/

/-- The `pixiv_last_artworks` table: `author_id → last_artwork_id`. -/
def Db := String → Option String

/-- Models `ctx.database.upsert('pixiv_last_artworks', [{author_id, last_artwork_id}])`
(also `ctx.database.create` in the ready pass — same effect on the map,
the key being primary). -/
def dbUpsert (db : Db) (uid lastId : String) : Db :=
  fun u => if u = uid then some lastId else db u

/-- The observable effects of a subscription cycle, in program order:
one `send` per `bot.sendMessage(channelId, messageContent)` call (with
the environment's success flag — a failure is caught and logged), and
one `write` per database upsert. -/
inductive SubEvent where
  | send (channelId : String) (content : PixivResult) (ok : Bool)
  | write (uid : String) (lastId : String)
  deriving Repr, DecidableEq

/-- The environment of the subscription tracker: the renderer's
environment, `pixiv.getUserIllusts` per author uid, whether the
configured push bot is found online, and whether `bot.sendMessage` to a
given channel succeeds. -/
structure SubEnv where
  renv : RenderEnv
  userIllusts : String → Option (List Illust)
  botOnline : Bool
  sendOk : String → Bool

/-- The content `checkAndPushUpdates` generates for a latest artwork:
`handlePixivRequest(null, latestId, 'middleware', true)`. -/
def subRender (cfg : Config) (env : SubEnv) (latestId : Nat) : PixivResult :=
  (handlePixivRequest cfg env.renv latestId Source.middleware true none).result

/-- Models `const isNew = !lastIdInDb || latestId !== lastIdInDb` where
`lastIdInDb = record[0]?.last_artwork_id`. -/
def subIsNew (db : Db) (uid latestId : String) : Bool :=
  (db uid).isNone || (db uid != some latestId)

/-- Models `const shouldPush = isNew || (isManualTrigger && !!latestId)`. -/
def subShouldPush (isNew isManualTrigger : Bool) (latestId : String) : Bool :=
  isNew || (isManualTrigger && latestId ≠ "")

/-- The loop body of `checkAndPushUpdates` for one subscription entry.
Returns the database after the entry, the events it emitted in order,
and its contribution to `updatesFound`.  Mirrors the source: skip
entries with no uid or no channels; skip when the listing is
empty/unavailable; on push, generate content and — when generation
fails — `continue`, skipping the sends AND the `if (isNew)` upsert;
otherwise send to every channel (failures caught per channel) and then
upsert when `isNew`. -/
def processSub (cfg : Config) (env : SubEnv) (isManualTrigger : Bool)
    (db : Db) (sub : Subscription) : Db × List SubEvent × Nat :=
  if sub.uid = "" then (db, [], 0)
  else if sub.channelIds.length = 0 then (db, [], 0)
  else
    match env.userIllusts sub.uid with
    | none => (db, [], 0)
    | some [] => (db, [], 0)
    | some (latestIllust :: _) =>
      if subShouldPush (subIsNew db sub.uid (Nat.repr latestIllust.id)) isManualTrigger
          (Nat.repr latestIllust.id) then
        if subRender cfg env latestIllust.id == PixivResult.silentNone then
          (db, [], 1)
        else
          if subIsNew db sub.uid (Nat.repr latestIllust.id) then
            (dbUpsert db sub.uid (Nat.repr latestIllust.id),
             sub.channelIds.map
               (fun ch => SubEvent.send ch (subRender cfg env latestIllust.id) (env.sendOk ch))
               ++ [SubEvent.write sub.uid (Nat.repr latestIllust.id)], 1)
          else
            (db, sub.channelIds.map
              (fun ch => SubEvent.send ch (subRender cfg env latestIllust.id) (env.sendOk ch)), 1)
      else
        if subIsNew db sub.uid (Nat.repr latestIllust.id) then
          (dbUpsert db sub.uid (Nat.repr latestIllust.id),
           [SubEvent.write sub.uid (Nat.repr latestIllust.id)], 0)
        else (db, [], 0)

/-- The `for (const sub of config.subscriptions)` loop, threading the
database and concatenating events. -/
def runSubs (cfg : Config) (env : SubEnv) (isManualTrigger : Bool) :
    List Subscription → Db → Db × List SubEvent × Nat
  | [], db => (db, [], 0)
  | sub :: rest, db =>
    let r1 := processSub cfg env isManualTrigger db sub
    let r2 := runSubs cfg env isManualTrigger rest r1.1
    (r2.1, r1.2.1 ++ r2.2.1, r1.2.2 + r2.2.2)

/-- Model of `checkAndPushUpdates(isManualTrigger)`: a no-op when the
subscription feature is disabled or the configured push bot is not
found online; otherwise the per-author loop over
`config.subscriptions`. -/
def checkAndPushUpdates (cfg : Config) (env : SubEnv)
    (isManualTrigger : Bool) (db : Db) : Db × List SubEvent × Nat :=
  if !cfg.enableSubscription then (db, [], 0)
  else if !env.botOnline then (db, [], 0)
  else runSubs cfg env isManualTrigger cfg.subscriptions db

/-- The `ready` handler's initialisation pass: for each configured
author with no existing record, fetch the listing and, when non-empty,
create a record seeded with the current latest id; authors with a
record are left untouched and nothing is pushed. -/
def initSubscriptions (env : SubEnv) : List Subscription → Db → Db
  | [], db => db
  | sub :: rest, db =>
    let db1 :=
      match db sub.uid with
      | some _ => db
      | none =>
        match env.userIllusts sub.uid with
        | some (latestIllust :: _) => dbUpsert db sub.uid (Nat.repr latestIllust.id)
        | _ => db
    initSubscriptions env rest db1

/-! ## Shared concrete fixtures (for witnesses and counterexamples) -/

/-- A configuration with every field at its schema default (plus a
configured refresh token). -/
def cfg0 : Config where
  refreshToken := some "rt"
  sendTags := true
  sendAuthor := true
  sendLinkWithCommand := false
  r18Action := R18Action.warn
  forwardThreshold := 3
  pdfThreshold := 10
  autoPdfForR18 := true
  pdfPassword := none
  pdfSendMode := PdfSendMode.buffer
  enableCompression := true
  compressionQuality := 80
  enableSubscription := false
  subscriptions := []
  pushBotPlatform := none

def errNone : HttpError := ⟨none, none⟩

/-- HTTP environment whose token endpoint answers without an
`access_token` and whose requests all fail. -/
def envNoToken : PixivEnv where
  refreshOutcome := fun _ => RefreshOutcome.noToken
  requestOutcome := fun _ => Except.error errNone
  downloadRaw := fun _ => Except.error errNone

/-- HTTP environment whose token endpoint throws. -/
def envThrown : PixivEnv where
  refreshOutcome := fun _ => RefreshOutcome.thrown
  requestOutcome := fun _ => Except.error errNone
  downloadRaw := fun _ => Except.error errNone

/-- Service state holding a (stale) access token. -/
def stOld : SvcState := ⟨some "old", 0, 0⟩

/-- Service state at startup: no token held yet. -/
def stFresh : SvcState := ⟨none, 0, 0⟩

/-- The HTTP 400 invalid-token error used by the C3 witness. -/
def err400 : HttpError := ⟨some 400, some "Error occurred at the OAuth process: invalid_grant"⟩

/-- A server-side error distinct from the auth failure, so the retried
request's failure is observable as such. -/
def err500 : HttpError := ⟨some 500, some "server"⟩

/-- Environment for the C3 witness: first authorized GET fails with the
invalid-token 400, the re-exchange succeeds, the resend fails with a
500. -/
def envRetry : PixivEnv where
  refreshOutcome := fun _ => RefreshOutcome.ok "t2"
  requestOutcome := fun n => if n = 0 then Except.error err400 else Except.error err500
  downloadRaw := fun _ => Except.error errNone

/-- A concrete, dimension-preserving but byte-changing JPEG encoder
model for witnesses. -/
def encShift : Nat → Img → Img :=
  fun q img => ⟨img.width, img.height, img.bytes.map (fun x => x + q)⟩

def imgA : Img := ⟨100, 200, [1, 2, 3]⟩
def imgB : Img := ⟨300, 400, [4, 5]⟩

def cfgNoComp : Config := { cfg0 with enableCompression := false }

/-- The artwork and environment used by the renderer witnesses: six
downloadable images, not R-18. -/
def illust6 : Illust := ⟨77, "title6", "author6", ["tag1"], 0,
  ["u1", "u2", "u3", "u4", "u5", "u6"], "u0"⟩

def renvAll : RenderEnv where
  artworkDetail := fun n => if n = 77 then some illust6 else none
  download := fun _ => some imgA
  jpegEnc := encShift

/-- Config for the C8 witness: PDF threshold 5 ≤ 6 images. -/
def cfgPdf5 : Config :=
  { cfg0 with
      pdfThreshold := 5
      autoPdfForR18 := false
      r18Action := R18Action.send }

def PixivResult.isForward : PixivResult → Bool
  | .forwardMsg _ _ => true
  | _ => false

/-- Config for the C10 counterexample: forward threshold 3, but PDF
threshold 5 also met by six images. -/
def cfgC10 : Config :=
  { cfg0 with
      forwardThreshold := 3
      pdfThreshold := 5
      autoPdfForR18 := false
      r18Action := R18Action.send }

/-- Config for the C10 witness: forward threshold met, PDF mode fully
disabled. -/
def cfgFwd : Config :=
  { cfg0 with
      forwardThreshold := 3
      pdfThreshold := 0
      autoPdfForR18 := false
      r18Action := R18Action.send }

def SubEvent.isWriteFor (u : String) : SubEvent → Bool
  | .write uid _ => uid == u
  | _ => false

def SubEvent.isWrite : SubEvent → Bool
  | .write _ _ => true
  | _ => false

def SubEvent.isSend : SubEvent → Bool
  | .send _ _ _ => true
  | _ => false

/-! ## Subscription fixtures -/

def illu50 : Illust := ⟨50, "t50", "a50", [], 0, [], "u50"⟩

def subA : Subscription := ⟨"11", "A", ["c1"]⟩

def subB : Subscription := ⟨"7", "B", ["c1"]⟩

/-- Subscription-enabled configuration with the PDF and forward modes
disabled, tracking `subA`. -/
def cfgSubA : Config :=
  { cfg0 with
      enableSubscription := true
      subscriptions := [subA]
      pushBotPlatform := some "onebot"
      pdfThreshold := 0
      forwardThreshold := 0
      autoPdfForR18 := false }

def cfgSubB : Config := { cfgSubA with subscriptions := [subB] }

/-- Renderer environment in which every artwork-detail fetch fails, so
content generation yields nothing. -/
def renvFail : RenderEnv := ⟨fun _ => none, fun _ => none, encShift⟩

def envC1 : SubEnv :=
  ⟨renvFail, fun u => if u = "11" then some [illu50] else none, true, fun _ => true⟩

/-- Renderer environment in which artwork 50 is fetchable and its image
downloads. -/
def renvOk : RenderEnv :=
  ⟨fun n => if n = 50 then some illu50 else none, fun _ => some imgA, encShift⟩

def envOlder : SubEnv :=
  ⟨renvOk, fun u => if u = "7" then some [illu50] else none, true, fun _ => true⟩

def dbEmpty : Db := fun _ => none

def dbOld : Db := fun u => if u = "7" then some "100" else none

def dbCur : Db := fun u => if u = "7" then some "50" else none

/-! ## General helper lemmas -/

lemma toDigitsCore_length_le (b : Nat) :
    ∀ (f n : Nat) (ds : List Char), ds.length ≤ (Nat.toDigitsCore b f n ds).length := by
  intro f
  induction f with
  | zero => intro n ds; simp [Nat.toDigitsCore]
  | succ f ih =>
    intro n ds
    simp only [Nat.toDigitsCore]
    split
    · simp
    · exact le_trans (by simp) (ih (n / b) (Nat.digitChar (n % b) :: ds))

/-- A numeric artwork id's `toString()` is never the empty string,
so `!!latestId` is always truthy in the subscription loop. -/
lemma repr_ne_empty (n : Nat) : Nat.repr n ≠ "" := by
  have h : 1 ≤ (Nat.toDigits 10 n).length := by
    unfold Nat.toDigits
    simp only [Nat.toDigitsCore]
    split
    · simp
    · exact le_trans (by simp) (toDigitsCore_length_le 10 n (n / 10) [Nat.digitChar (n % 10)])
  intro hc
  have hnil : (Nat.toDigits 10 n) = [] := by
    have := congrArg String.data hc
    simpa [Nat.repr, List.asString] using this
  rw [hnil] at h
  simp at h

/-! ## C5 — token refresh side effects -/

/-- C5: what `_refreshAccessToken` actually does to the held token:
success stores the new token; a thrown exchange clears it; but a
missing refresh credential or a token-less response leaves it
UNCHANGED (the spec's "failed refresh clears it" only holds for the
thrown case). -/
theorem refreshAccessToken_spec (cfg : Config) (env : PixivEnv) (st : SvcState) :
    ((refreshAccessToken cfg env st).1 = true →
      ∃ t, env.refreshOutcome st.refreshCount = RefreshOutcome.ok t ∧
        (refreshAccessToken cfg env st).2.accessToken = some t) ∧
    (cfg.refreshToken = none →
      refreshAccessToken cfg env st = (false, st)) ∧
    (∀ rt, cfg.refreshToken = some rt →
      env.refreshOutcome st.refreshCount = RefreshOutcome.thrown →
      (refreshAccessToken cfg env st).1 = false ∧
      (refreshAccessToken cfg env st).2.accessToken = none) ∧
    (∀ rt, cfg.refreshToken = some rt →
      env.refreshOutcome st.refreshCount = RefreshOutcome.noToken →
      (refreshAccessToken cfg env st).1 = false ∧
      (refreshAccessToken cfg env st).2.accessToken = st.accessToken) := by
  unfold refreshAccessToken
  cases hrt : cfg.refreshToken with
  | none => simp
  | some rt => cases ho : env.refreshOutcome st.refreshCount <;> simp [ho]

/-- C5 counterexample: the exchange responds without an `access_token`;
the refresh fails (`false`) yet the held token is NOT cleared — it is
still `some "old"`, not `null`. -/
theorem refresh_failed_token_not_cleared :
    (refreshAccessToken cfg0 envNoToken stOld).1 = false ∧
    (refreshAccessToken cfg0 envNoToken stOld).2.accessToken = some "old" := by
  exact ⟨rfl, rfl⟩

/-- C5 witness: at a concrete thrown exchange, the amended theorem
yields a failed refresh with the token cleared. -/
theorem refreshAccessToken_spec_witness :
    (refreshAccessToken cfg0 envThrown stOld).1 = false ∧
    (refreshAccessToken cfg0 envThrown stOld).2.accessToken = none :=
  (refreshAccessToken_spec cfg0 envThrown stOld).2.2.1 "rt" rfl rfl

/-! ## C3 — exactly one refresh-and-retry on an invalid-token failure -/

/-- C3: when a held token is present and the first attempt fails with
an HTTP 400 carrying an invalid_grant/invalid_token signal, `_request`
performs exactly one token re-exchange; if it succeeds, exactly one
resend whose outcome (including its error) is what the caller observes;
if the re-exchange fails, the original error surfaces and no resend
happens.  The final counters bound the attempts: no further retries. -/
theorem request_single_retry (cfg : Config) (env : PixivEnv) (st : SvcState)
    (tok rt : String) (e : HttpError)
    (htok : st.accessToken = some tok)
    (hrt : cfg.refreshToken = some rt)
    (h1 : env.requestOutcome st.requestCount = Except.error e)
    (hbad : isInvalidTokenError e = true) :
    (request cfg env st).2.refreshCount = st.refreshCount + 1 ∧
    (∀ t, env.refreshOutcome st.refreshCount = RefreshOutcome.ok t →
      (request cfg env st).2.requestCount = st.requestCount + 2 ∧
      (request cfg env st).1 =
        (match env.requestOutcome (st.requestCount + 1) with
          | Except.ok resp => Except.ok resp
          | Except.error e2 => Except.error (ReqError.http e2))) ∧
    ((env.refreshOutcome st.refreshCount = RefreshOutcome.noToken ∨
      env.refreshOutcome st.refreshCount = RefreshOutcome.thrown) →
      (request cfg env st).2.requestCount = st.requestCount + 1 ∧
      (request cfg env st).1 = Except.error (ReqError.http e)) := by
  unfold request makeRequest refreshAccessToken
  cases ho : env.refreshOutcome st.refreshCount <;>
    cases h2 : env.requestOutcome (st.requestCount + 1) <;>
    simp [htok, hrt, h1, hbad, ho, h2]

/-- C3 witness: concrete run of the refresh-and-retry cycle — one
re-exchange, one resend, and the resend's error is what surfaces. -/
theorem request_single_retry_witness :
    (request cfg0 envRetry stOld).2.refreshCount = 1 ∧
    (request cfg0 envRetry stOld).2.requestCount = 2 ∧
    (request cfg0 envRetry stOld).1 = Except.error (ReqError.http err500) := by
  have h := request_single_retry cfg0 envRetry stOld "old" "rt" err400 rfl rfl rfl (by decide)
  refine ⟨h.1, (h.2.1 "t2" rfl).1, ?_⟩
  have h2 := (h.2.1 "t2" rfl).2
  simpa [envRetry] using h2

/-! ## C6 — gallery accessors normalize every failure to null -/

/-- C6: each gallery accessor resolves (never rejects): whatever the
HTTP layer does, the result is `.ok` — a thrown error never escapes the
accessor — and when the underlying request (or download) fails, the
returned payload is `none` (the soft "not found" result). -/
theorem accessors_soft_fail (cfg : Config) (env : PixivEnv) (st : SvcState) (url : String) :
    (∃ o, (getArtworkDetail cfg env st).1 = Except.ok o) ∧
    (∃ o, (getUserDetail cfg env st).1 = Except.ok o) ∧
    (∃ o, (getUserIllusts cfg env st).1 = Except.ok o) ∧
    (∃ o, downloadImage env url = Except.ok o) ∧
    (∀ e, (request cfg env st).1 = Except.error e →
      (getArtworkDetail cfg env st).1 = Except.ok none ∧
      (getUserDetail cfg env st).1 = Except.ok none ∧
      (getUserIllusts cfg env st).1 = Except.ok none) ∧
    (∀ e, env.downloadRaw url = Except.error e → downloadImage env url = Except.ok none) := by
  rcases hreq : request cfg env st with ⟨r, st1⟩
  rcases hd : env.downloadRaw url with e0 | bs <;> cases r <;>
    simp [getArtworkDetail, getUserDetail, getUserIllusts, downloadImage, hreq, hd]

/-- C6 witness: with no held token and a token endpoint that cannot
mint one, the underlying request fails, and each accessor returns a
soft `none`. -/
theorem accessors_soft_fail_witness :
    (getArtworkDetail cfg0 envNoToken stFresh).1 = Except.ok none ∧
    (getUserIllusts cfg0 envNoToken stFresh).1 = Except.ok none ∧
    downloadImage envNoToken "https://i.pximg.net/x.png" = Except.ok none := by
  have h := accessors_soft_fail cfg0 envNoToken stFresh "https://i.pximg.net/x.png"
  have he := h.2.2.2.2.1 ReqError.tokenUnavailable rfl
  exact ⟨he.1, he.2.2, h.2.2.2.2.2 errNone rfl⟩

/-! ## C9 — every page is JPEG re-encoded; the option only sets quality -/

/-- C9 counterexample: with compression disabled and a byte-changing
JPEG encoder, the page built from a concrete buffer carries the
encoder's output at sharp's default quality, NOT the original
downloaded bytes — the buffer is still written through
`sharp(...).toFile('1.jpg')`, so its bytes are never embedded
unchanged. -/
theorem original_bytes_not_embedded :
    cfgNoComp.enableCompression = false ∧
    (createPdfFile cfgNoComp encShift [imgA]).pages.map PdfPage.imageBytes
      = [(encShift sharpDefaultJpegQuality imgA).bytes] ∧
    (createPdfFile cfgNoComp encShift [imgA]).pages.map PdfPage.imageBytes
      ≠ [imgA.bytes] := by
  refine ⟨rfl, rfl, ?_⟩
  decide

/-- C9 (amended): every buffer is JPEG re-encoded on its way into the
document — the compression option only selects the quality: the
configured `compressionQuality` when enabled, sharp's default quality
when disabled.  Original downloaded bytes are never embedded as-is. -/
theorem createPdfFile_always_reencodes (cfg : Config) (enc : Nat → Img → Img)
    (buffers : List Img) :
    (cfg.enableCompression = true →
      (createPdfFile cfg enc buffers).pages.map PdfPage.imageBytes
        = buffers.map (fun b => (enc cfg.compressionQuality b).bytes)) ∧
    (cfg.enableCompression = false →
      (createPdfFile cfg enc buffers).pages.map PdfPage.imageBytes
        = buffers.map (fun b => (enc sharpDefaultJpegQuality b).bytes)) := by
  constructor <;> intro h <;>
    simp [createPdfFile, h, List.map_map, Function.comp_def]

/-- C9 witness: with compression off, the embedded bytes of a concrete
two-image build are the default-quality re-encodings of the buffers. -/
theorem createPdfFile_always_reencodes_witness :
    (createPdfFile cfgNoComp encShift [imgA, imgB]).pages.map PdfPage.imageBytes
      = [imgA, imgB].map (fun b => (encShift sharpDefaultJpegQuality b).bytes) :=
  (createPdfFile_always_reencodes cfgNoComp encShift [imgA, imgB]).2 rfl

/-! ## C8 — PDF threshold produces an N-page PDF in order -/

lemma createPdfFile_dims (cfg : Config) (enc : Nat → Img → Img) (buffers : List Img)
    (henc : ∀ q i, (enc q i).width = i.width ∧ (enc q i).height = i.height) :
    (createPdfFile cfg enc buffers).pages.length = buffers.length ∧
    (createPdfFile cfg enc buffers).pages.map (fun p => (p.width, p.height))
      = buffers.map (fun b => (b.width, b.height)) := by
  constructor
  · simp [createPdfFile]
  · simp only [createPdfFile, List.map_map]
    refine List.map_congr_left ?_
    intro b _
    by_cases hc : cfg.enableCompression <;>
      simp [hc, Function.comp_def, (henc cfg.compressionQuality b).1,
        (henc cfg.compressionQuality b).2, (henc sharpDefaultJpegQuality b).1,
        (henc sharpDefaultJpegQuality b).2]

/-- Control-flow characterization of a `handlePixivRequest` run: either
an early return fired before (or at) the download stage and the run
downloaded nothing, or the run reached the output-selection stage with
the downloaded buffers, and its result is `renderLoaded` on them. -/
lemma handlePixivRequest_main (cfg : Config) (env : RenderEnv) (pid : Nat)
    (source : Source) (isSubscription : Bool) (sessionPlatform : Option String) :
    (handlePixivRequest cfg env pid source isSubscription sessionPlatform).downloaded = [] ∨
    ∃ illust, env.artworkDetail pid = some illust ∧
      (handlePixivRequest cfg env pid source isSubscription sessionPlatform).downloaded
        = (illustImageUrls illust).filterMap env.download ∧
      (handlePixivRequest cfg env pid source isSubscription sessionPlatform).result
        = renderLoaded cfg env.jpegEnc illust isSubscription source pid sessionPlatform
            ((illustImageUrls illust).filterMap env.download) := by
  unfold handlePixivRequest
  rcases hdet : env.artworkDetail pid with _ | illust
  · left; rfl
  · dsimp only
    by_cases h1 : (decide (illust.xRestrict > 0) && cfg.r18Action == R18Action.block) = true
    · rw [if_pos h1]; left; rfl
    · rw [if_neg h1]
      by_cases h2 : (decide (illust.xRestrict > 0) && cfg.r18Action == R18Action.warn
          && !isSubscription) = true
      · rw [if_pos h2]; left; rfl
      · rw [if_neg h2]
        by_cases h3 : (((illustImageUrls illust).filterMap env.download).length == 0) = true
        · rw [if_pos h3]; left
          exact List.length_eq_zero.mp (by simpa using h3)
        · rw [if_neg h3]; right; exact ⟨illust, rfl, rfl, rfl⟩

/-- C8: any run of `handlePixivRequest` that downloads `N` images with
`0 < pdfThreshold ≤ N` (and whose image encoder preserves pixel
dimensions, as JPEG re-encoding does) outputs a PDF message whose
document has exactly `N` pages whose dimensions, in page order, are the
pixel dimensions of the downloaded images in input order. -/
theorem pdf_threshold_yields_pdf (cfg : Config) (env : RenderEnv) (pid : Nat)
    (source : Source) (isSubscription : Bool) (sessionPlatform : Option String)
    (N : Nat)
    (hN : (handlePixivRequest cfg env pid source isSubscription sessionPlatform).downloaded.length = N)
    (hP : 0 < cfg.pdfThreshold) (hPN : cfg.pdfThreshold ≤ N)
    (henc : ∀ q i, (env.jpegEnc q i).width = i.width ∧ (env.jpegEnc q i).height = i.height) :
    ∃ t doc,
      (handlePixivRequest cfg env pid source isSubscription sessionPlatform).result
        = PixivResult.pdfMsg t doc cfg.pdfSendMode ∧
      doc.pages.length = N ∧
      doc.pages.map (fun p => (p.width, p.height))
        = (handlePixivRequest cfg env pid source isSubscription sessionPlatform).downloaded.map
            (fun b => (b.width, b.height)) := by
  rcases handlePixivRequest_main cfg env pid source isSubscription sessionPlatform with
    h | ⟨illust, hdet, hdl, hres⟩
  · rw [h] at hN; simp at hN; omega
  · have hlen : ((illustImageUrls illust).filterMap env.download).length = N := by
      rw [← hdl]; exact hN
    have hsp : shouldCreatePdf cfg (decide (illust.xRestrict > 0))
        ((illustImageUrls illust).filterMap env.download).length = true := by
      simp only [shouldCreatePdf, Bool.or_eq_true, Bool.and_eq_true, decide_eq_true_eq]
      right; exact ⟨hP, by omega⟩
    refine ⟨buildTextInfo cfg illust isSubscription source pid,
      createPdfFile cfg env.jpegEnc ((illustImageUrls illust).filterMap env.download),
      ?_, ?_, ?_⟩
    · rw [hres]; unfold renderLoaded; dsimp only; rw [if_pos hsp]
    · rw [(createPdfFile_dims cfg env.jpegEnc _ henc).1]; exact hlen
    · rw [hdl, (createPdfFile_dims cfg env.jpegEnc _ henc).2]

/-- C8 witness: a concrete six-image artwork above a PDF threshold of 5
yields a six-page PDF with the images' dimensions in order. -/
theorem pdf_threshold_yields_pdf_witness :
    ∃ t doc,
      (handlePixivRequest cfgPdf5 renvAll 77 Source.middleware false (some "onebot")).result
        = PixivResult.pdfMsg t doc cfgPdf5.pdfSendMode ∧
      doc.pages.length = 6 ∧
      doc.pages.map (fun p => (p.width, p.height))
        = (handlePixivRequest cfgPdf5 renvAll 77 Source.middleware false (some "onebot")).downloaded.map
            (fun b => (b.width, b.height)) :=
  pdf_threshold_yields_pdf cfgPdf5 renvAll 77 Source.middleware false (some "onebot") 6
    (by decide) (by decide) (by decide)
    (fun q i => ⟨rfl, rfl⟩)

/-! ## C10 — forward bundling, preempted by the PDF mode -/

/-- C10 counterexample: six downloadable images, forward threshold 3
(met), platform `onebot` (forward-capable) — yet the output is not a
forward bundle, because the PDF threshold (5) takes priority. -/
theorem forward_bundle_claim_fails :
    (handlePixivRequest cfgC10 renvAll 77 Source.middleware false (some "onebot")).downloaded.length = 6 ∧
    cfgC10.forwardThreshold = 3 ∧
    ((some "onebot" : Option String) == some "qq"
      || (some "onebot" : Option String) == some "onebot") = true ∧
    ((handlePixivRequest cfgC10 renvAll 77 Source.middleware false (some "onebot")).result).isForward
      = false := by
  refine ⟨?_, rfl, by decide, ?_⟩ <;> decide

/-- C10 amended: the run must additionally not trigger the PDF mode
(auto-PDF for an R-18 artwork, or the PDF threshold being met); then a
run downloading `N ≥ forwardThreshold > 0` images for a forward-capable
platform outputs exactly one bundle of the text plus all `N` images in
input order. -/
theorem forward_threshold_bundles (cfg : Config) (env : RenderEnv) (pid : Nat)
    (source : Source) (isSubscription : Bool) (sessionPlatform : Option String)
    (N : Nat)
    (hN : (handlePixivRequest cfg env pid source isSubscription sessionPlatform).downloaded.length = N)
    (hT : 0 < cfg.forwardThreshold) (hTN : cfg.forwardThreshold ≤ N)
    (hplat : (if isSubscription then cfg.pushBotPlatform else sessionPlatform) = some "qq"
      ∨ (if isSubscription then cfg.pushBotPlatform else sessionPlatform) = some "onebot")
    (hpdf : cfg.pdfThreshold = 0 ∨ N < cfg.pdfThreshold)
    (hauto : cfg.autoPdfForR18 = false ∨
      ∀ illust, env.artworkDetail pid = some illust → illust.xRestrict = 0) :
    ∃ illust, env.artworkDetail pid = some illust ∧
      (handlePixivRequest cfg env pid source isSubscription sessionPlatform).result
        = PixivResult.forwardMsg (buildTextInfo cfg illust isSubscription source pid)
            (handlePixivRequest cfg env pid source isSubscription sessionPlatform).downloaded := by
  rcases handlePixivRequest_main cfg env pid source isSubscription sessionPlatform with
    h | ⟨illust, hdet, hdl, hres⟩
  · rw [h] at hN; simp at hN; omega
  · have hlen : ((illustImageUrls illust).filterMap env.download).length = N := by
      rw [← hdl]; exact hN
    have hsp : shouldCreatePdf cfg (decide (illust.xRestrict > 0))
        ((illustImageUrls illust).filterMap env.download).length = false := by
      simp only [shouldCreatePdf, Bool.or_eq_false_iff, Bool.and_eq_false_iff,
        decide_eq_false_iff_not]
      constructor
      · rcases hauto with ha | ha
        · left; simp [ha]
        · right; simp [ha illust hdet]
      · rcases hpdf with hp | hp
        · left; omega
        · right; omega
    have hfw : (cfg.forwardThreshold > 0
        && ((illustImageUrls illust).filterMap env.download).length ≥ cfg.forwardThreshold
        && isForwardCapable (forwardPlatform cfg isSubscription sessionPlatform)) = true := by
      simp only [Bool.and_eq_true, decide_eq_true_eq]
      refine ⟨⟨hT, by omega⟩, ?_⟩
      rcases hplat with hp | hp <;> simp [isForwardCapable, forwardPlatform] at hp ⊢ <;>
        simp [hp]
    refine ⟨illust, hdet, ?_⟩
    rw [hres, hdl]
    unfold renderLoaded
    dsimp only
    rw [if_neg (by simp [hsp]), if_pos hfw]

/-- C10 witness: with the PDF mode not triggered, six images over a
forward threshold of 3 on platform `onebot` yield the single bundle. -/
theorem forward_threshold_bundles_witness :
    ∃ illust, renvAll.artworkDetail 77 = some illust ∧
      (handlePixivRequest cfgFwd renvAll 77 Source.middleware false (some "onebot")).result
        = PixivResult.forwardMsg (buildTextInfo cfgFwd illust false Source.middleware 77)
            (handlePixivRequest cfgFwd renvAll 77 Source.middleware false (some "onebot")).downloaded :=
  forward_threshold_bundles cfgFwd renvAll 77 Source.middleware false (some "onebot") 6
    (by decide) (by decide) (by decide) (Or.inr rfl) (Or.inl rfl) (Or.inl rfl)

/-! ## Subscription-loop helper lemmas -/

lemma dbUpsert_other (db : Db) (uid lastId u : String) (h : u ≠ uid) :
    dbUpsert db uid lastId u = db u := by
  unfold dbUpsert; rw [if_neg h]

/-- The `isNew` test is `true` exactly when the stored id differs from
the latest API id (or no record exists). -/
lemma subIsNew_true_of_ne (db : Db) (uid lastId : String)
    (hnew : db uid ≠ some lastId) : subIsNew db uid lastId = true := by
  unfold subIsNew
  cases hdb : db uid with
  | none => rfl
  | some a =>
    simp only [hdb, Option.isNone_some, Bool.false_or, bne_iff_ne, ne_eq]
    rw [hdb] at hnew
    simpa using hnew

lemma subIsNew_false_of_eq (db : Db) (uid lastId : String)
    (hdb : db uid = some lastId) : subIsNew db uid lastId = false := by
  unfold subIsNew
  simp [hdb]

lemma processSub_db_other (cfg : Config) (env : SubEnv) (m : Bool) (db : Db)
    (s : Subscription) (u : String) (h : s.uid ≠ u) :
    (processSub cfg env m db s).1 u = db u := by
  unfold processSub
  repeat' split
  all_goals first
    | rfl
    | exact dbUpsert_other db s.uid _ u (Ne.symm h)

/-- Loop body on a valid entry with a new latest id and successful
content generation: pushes to every channel, then writes the record. -/
lemma processSub_new_render_ok (cfg : Config) (env : SubEnv) (m : Bool) (db : Db)
    (s : Subscription) (ill : Illust) (rest : List Illust)
    (hu : s.uid ≠ "") (hch : s.channelIds ≠ [])
    (hil : env.userIllusts s.uid = some (ill :: rest))
    (hnew : db s.uid ≠ some (Nat.repr ill.id))
    (hr : subRender cfg env ill.id ≠ PixivResult.silentNone) :
    processSub cfg env m db s =
      (dbUpsert db s.uid (Nat.repr ill.id),
       s.channelIds.map (fun ch => SubEvent.send ch (subRender cfg env ill.id) (env.sendOk ch))
         ++ [SubEvent.write s.uid (Nat.repr ill.id)], 1) := by
  unfold processSub
  rw [if_neg hu, if_neg (by simpa using hch), hil]
  dsimp only
  rw [if_pos (by simp [subShouldPush, subIsNew_true_of_ne db s.uid _ hnew])]
  rw [if_neg (by simpa using hr)]
  rw [if_pos (by simp [subIsNew_true_of_ne db s.uid _ hnew])]

/-- Loop body on a valid entry with a new latest id but failed content
generation: `continue` — no send, and crucially NO record write. -/
lemma processSub_new_render_none (cfg : Config) (env : SubEnv) (m : Bool) (db : Db)
    (s : Subscription) (ill : Illust) (rest : List Illust)
    (hu : s.uid ≠ "") (hch : s.channelIds ≠ [])
    (hil : env.userIllusts s.uid = some (ill :: rest))
    (hnew : db s.uid ≠ some (Nat.repr ill.id))
    (hr : subRender cfg env ill.id = PixivResult.silentNone) :
    processSub cfg env m db s = (db, [], 1) := by
  unfold processSub
  rw [if_neg hu, if_neg (by simpa using hch), hil]
  dsimp only
  rw [if_pos (by simp [subShouldPush, subIsNew_true_of_ne db s.uid _ hnew])]
  rw [if_pos (by simpa using hr)]

/-- Loop body on a valid entry whose stored id already equals the
latest, outside a manual trigger: a complete no-op. -/
lemma processSub_not_new (cfg : Config) (env : SubEnv) (db : Db)
    (s : Subscription) (ill : Illust) (rest : List Illust)
    (hil : env.userIllusts s.uid = some (ill :: rest))
    (hdb : db s.uid = some (Nat.repr ill.id)) :
    processSub cfg env false db s = (db, [], 0) := by
  unfold processSub
  by_cases hu : s.uid = ""
  · rw [if_pos hu]
  · rw [if_neg hu]
    by_cases hch : s.channelIds.length = 0
    · rw [if_pos hch]
    · rw [if_neg hch, hil]
      dsimp only
      rw [if_neg (by simp [subShouldPush, subIsNew_false_of_eq db s.uid _ hdb])]
      rw [if_neg (by simp [subIsNew_false_of_eq db s.uid _ hdb])]

/-- Loop body on a valid entry whose stored id already equals the
latest, under a manual trigger with successful content generation:
pushes to every channel but performs no write. -/
lemma processSub_manual_not_new (cfg : Config) (env : SubEnv) (db : Db)
    (s : Subscription) (ill : Illust) (rest : List Illust)
    (hu : s.uid ≠ "") (hch : s.channelIds ≠ [])
    (hil : env.userIllusts s.uid = some (ill :: rest))
    (hdb : db s.uid = some (Nat.repr ill.id))
    (hr : subRender cfg env ill.id ≠ PixivResult.silentNone) :
    processSub cfg env true db s =
      (db, s.channelIds.map
        (fun ch => SubEvent.send ch (subRender cfg env ill.id) (env.sendOk ch)), 1) := by
  unfold processSub
  rw [if_neg hu, if_neg (by simpa using hch), hil]
  dsimp only
  rw [if_pos (by simp [subShouldPush, repr_ne_empty ill.id])]
  rw [if_neg (by simpa using hr)]
  rw [if_neg (by simp [subIsNew_false_of_eq db s.uid _ hdb])]

lemma dbUpsert_self (db : Db) (uid v : String) : dbUpsert db uid v uid = some v := by
  unfold dbUpsert; rw [if_pos rfl]

lemma subIsNew_ne_of_true (db : Db) (uid lastId : String)
    (h : subIsNew db uid lastId = true) : db uid ≠ some lastId := by
  unfold subIsNew at h
  cases hdb : db uid with
  | none => simp
  | some a =>
    rw [hdb] at h
    simp only [Option.isNone_some, Bool.false_or, bne_iff_ne, ne_eq] at h
    simpa using h

/-- Any `write` event the loop body emits is for its own author's uid,
carries the API's head artwork id, and was only emitted because the
stored id differed from it. -/
lemma processSub_write_mem (cfg : Config) (env : SubEnv) (m : Bool) (db : Db)
    (s : Subscription) (u v : String)
    (hmem : SubEvent.write u v ∈ (processSub cfg env m db s).2.1) :
    u = s.uid ∧ ∃ ill rest, env.userIllusts s.uid = some (ill :: rest) ∧
      v = Nat.repr ill.id ∧ db s.uid ≠ some v := by
  unfold processSub at hmem
  by_cases hu0 : s.uid = ""
  · rw [if_pos hu0] at hmem; simp at hmem
  · rw [if_neg hu0] at hmem
    by_cases hch : s.channelIds.length = 0
    · rw [if_pos hch] at hmem; simp at hmem
    · rw [if_neg hch] at hmem
      rcases hil : env.userIllusts s.uid with _ | ills
      · rw [hil] at hmem; simp at hmem
      · rcases ills with _ | ⟨ill, tail⟩
        · rw [hil] at hmem; simp at hmem
        · rw [hil] at hmem; dsimp only at hmem
          by_cases hsp : subShouldPush (subIsNew db s.uid (Nat.repr ill.id)) m
              (Nat.repr ill.id) = true
          · rw [if_pos hsp] at hmem
            by_cases hrc : (subRender cfg env ill.id == PixivResult.silentNone) = true
            · rw [if_pos hrc] at hmem; simp at hmem
            · rw [if_neg hrc] at hmem
              by_cases hin : subIsNew db s.uid (Nat.repr ill.id) = true
              · rw [if_pos hin] at hmem
                simp only [List.mem_append, List.mem_map, List.mem_singleton] at hmem
                rcases hmem with ⟨ch, _, hc⟩ | heqw
                · exact absurd hc (by simp)
                · obtain ⟨h1, h2⟩ := SubEvent.write.inj heqw
                  subst h1; subst h2
                  exact ⟨rfl, ill, tail, rfl, rfl, subIsNew_ne_of_true db s.uid _ hin⟩
              · rw [if_neg hin] at hmem
                simp only [List.mem_map] at hmem
                obtain ⟨ch, _, hc⟩ := hmem
                exact absurd hc (by simp)
          · rw [if_neg hsp] at hmem
            by_cases hin : subIsNew db s.uid (Nat.repr ill.id) = true
            · rw [if_pos hin] at hmem
              simp only [List.mem_singleton] at hmem
              obtain ⟨h1, h2⟩ := SubEvent.write.inj hmem
              subst h1; subst h2
              exact ⟨rfl, ill, tail, rfl, rfl, subIsNew_ne_of_true db s.uid _ hin⟩
            · rw [if_neg hin] at hmem; simp at hmem

lemma runSubs_db_other (cfg : Config) (env : SubEnv) (m : Bool) :
    ∀ (l : List Subscription) (db : Db) (u : String),
      (∀ s ∈ l, s.uid ≠ u) → (runSubs cfg env m l db).1 u = db u := by
  intro l
  induction l with
  | nil => intro db u _; rfl
  | cons s rest ih =>
    intro db u h
    simp only [runSubs]
    rw [ih (processSub cfg env m db s).1 u (fun x hx => h x (List.mem_cons_of_mem s hx))]
    exact processSub_db_other cfg env m db s u (h s (List.mem_cons_self s rest))

lemma runSubs_write_uid_mem (cfg : Config) (env : SubEnv) (m : Bool) :
    ∀ (l : List Subscription) (db : Db) (u v : String),
      SubEvent.write u v ∈ (runSubs cfg env m l db).2.1 → ∃ s ∈ l, u = s.uid := by
  intro l
  induction l with
  | nil => intro db u v h; simp [runSubs] at h
  | cons s rest ih =>
    intro db u v h
    simp only [runSubs, List.mem_append] at h
    rcases h with h | h
    · exact ⟨s, List.mem_cons_self s rest, (processSub_write_mem cfg env m db s u v h).1⟩
    · obtain ⟨x, hx, hxu⟩ := ih (processSub cfg env m db s).1 u v h
      exact ⟨x, List.mem_cons_of_mem s hx, hxu⟩

lemma runSubs_filter_writes_other (cfg : Config) (env : SubEnv) (m : Bool)
    (l : List Subscription) (db : Db) (u : String) (h : ∀ s ∈ l, s.uid ≠ u) :
    (runSubs cfg env m l db).2.1.filter (SubEvent.isWriteFor u) = [] := by
  rw [List.filter_eq_nil_iff]
  intro ev hev
  cases ev with
  | send _ _ _ => simp [SubEvent.isWriteFor]
  | write u2 v =>
    obtain ⟨s, hs, hu2⟩ := runSubs_write_uid_mem cfg env m l db u2 v hev
    subst hu2
    simp [SubEvent.isWriteFor]
    exact h s hs

lemma runSubs_append (cfg : Config) (env : SubEnv) (m : Bool) :
    ∀ (l1 l2 : List Subscription) (db : Db),
      runSubs cfg env m (l1 ++ l2) db
        = ((runSubs cfg env m l2 (runSubs cfg env m l1 db).1).1,
           (runSubs cfg env m l1 db).2.1
             ++ (runSubs cfg env m l2 (runSubs cfg env m l1 db).1).2.1,
           (runSubs cfg env m l1 db).2.2
             + (runSubs cfg env m l2 (runSubs cfg env m l1 db).1).2.2) := by
  intro l1
  induction l1 with
  | nil => intro l2 db; simp [runSubs]
  | cons s r ih => intro l2 db; simp [runSubs, ih, Nat.add_assoc]

lemma filter_send_map (c : PixivResult) (f : String → Bool) :
    ∀ l : List String,
      ((l.map (fun ch => SubEvent.send ch c (f ch))).filter SubEvent.isSend
        = l.map (fun ch => SubEvent.send ch c (f ch))) ∧
      ((l.map (fun ch => SubEvent.send ch c (f ch))).filter SubEvent.isWrite = []) ∧
      (∀ u : String,
        (l.map (fun ch => SubEvent.send ch c (f ch))).filter (SubEvent.isWriteFor u) = []) := by
  intro l
  induction l with
  | nil => exact ⟨rfl, rfl, fun _ => rfl⟩
  | cons ch rest ih =>
    refine ⟨?_, ?_, fun u => ?_⟩ <;>
      simp [List.filter_cons, SubEvent.isSend, SubEvent.isWrite, SubEvent.isWriteFor,
        ih.1, ih.2.1, ih.2.2 _]

lemma initSubscriptions_preserves (env : SubEnv) :
    ∀ (l : List Subscription) (db : Db) (u : String), db u ≠ none →
      initSubscriptions env l db u = db u := by
  intro l
  induction l with
  | nil => intro db u _; rfl
  | cons s rest ih =>
    intro db u hu
    simp only [initSubscriptions]
    cases hdb : db s.uid with
    | some a =>
      simp only [hdb]
      exact ih db u hu
    | none =>
      cases hil : env.userIllusts s.uid with
      | none => simp only [hdb, hil]; exact ih db u hu
      | some ills =>
        cases ills with
        | nil => simp only [hdb, hil]; exact ih db u hu
        | cons i r =>
          simp only [hdb, hil]
          have hneq : u ≠ s.uid := fun hc => hu (by rw [hc]; exact hdb)
          have h1 : dbUpsert db s.uid (Nat.repr i.id) u = db u :=
            dbUpsert_other db s.uid _ u hneq
          rw [ih (dbUpsert db s.uid (Nat.repr i.id)) u (by rw [h1]; exact hu), h1]

/-! ## C2 — up-to-date author: no delivery, no write -/

/-- C2: in a cycle that is not manually triggered, an author whose
stored last-seen id equals the API's latest id contributes nothing: the
whole cycle is the cycle with that author removed from the list — no
delivery call, no persistence write, no database change. -/
theorem up_to_date_author_is_noop (cfg : Config) (env : SubEnv) (db : Db)
    (pre post : List Subscription) (sub : Subscription) (ill : Illust) (rest : List Illust)
    (hen : cfg.enableSubscription = true) (hbot : env.botOnline = true)
    (hsubs : cfg.subscriptions = pre ++ sub :: post)
    (hpre : ∀ s ∈ pre, s.uid ≠ sub.uid)
    (hil : env.userIllusts sub.uid = some (ill :: rest))
    (hdb : db sub.uid = some (Nat.repr ill.id)) :
    checkAndPushUpdates cfg env false db = runSubs cfg env false (pre ++ post) db := by
  have hred : checkAndPushUpdates cfg env false db
      = runSubs cfg env false (pre ++ sub :: post) db := by
    unfold checkAndPushUpdates; rw [hen, hbot, hsubs]; simp
  rw [hred]
  clear hred hsubs hen hbot
  induction pre generalizing db with
  | nil =>
    simp only [List.nil_append, runSubs]
    rw [processSub_not_new cfg env db sub ill rest hil hdb]
    simp
  | cons p pr ih =>
    simp only [List.cons_append, runSubs, List.append_eq]
    rw [ih (processSub cfg env false db p).1
        (fun s hs => hpre s (List.mem_cons_of_mem p hs))
        (by rw [processSub_db_other cfg env false db p sub.uid
              (hpre p (List.mem_cons_self p pr))]; exact hdb)]

/-- C2 witness: a concrete one-author configuration whose record is
already current; the non-manual cycle equals the empty cycle. -/
theorem up_to_date_author_is_noop_witness :
    checkAndPushUpdates cfgSubB envOlder false dbCur
      = runSubs cfgSubB envOlder false ([] ++ []) dbCur :=
  up_to_date_author_is_noop cfgSubB envOlder dbCur [] [] subB illu50 [] rfl rfl rfl
    (by simp) rfl (by decide)

/-! ## C1 — the write after a new artwork is found -/

/-- C1 (amended): for a tracked author (appearing once in the list)
whose latest API id differs from the stored one, the cycle performs
exactly one persistence write of the new id — whatever the delivery
outcomes (`env.sendOk` is arbitrary) — PROVIDED content generation
succeeds; when content generation yields nothing the loop `continue`s
and performs NO write for that author. -/
theorem new_artwork_single_write (cfg : Config) (env : SubEnv) (isManual : Bool) (db : Db)
    (pre post : List Subscription) (sub : Subscription) (ill : Illust) (rest : List Illust)
    (hen : cfg.enableSubscription = true) (hbot : env.botOnline = true)
    (hsubs : cfg.subscriptions = pre ++ sub :: post)
    (hpre : ∀ s ∈ pre, s.uid ≠ sub.uid) (hpost : ∀ s ∈ post, s.uid ≠ sub.uid)
    (hu : sub.uid ≠ "") (hch : sub.channelIds ≠ [])
    (hil : env.userIllusts sub.uid = some (ill :: rest))
    (hnew : db sub.uid ≠ some (Nat.repr ill.id)) :
    (subRender cfg env ill.id ≠ PixivResult.silentNone →
      (checkAndPushUpdates cfg env isManual db).2.1.filter (SubEvent.isWriteFor sub.uid)
        = [SubEvent.write sub.uid (Nat.repr ill.id)]) ∧
    (subRender cfg env ill.id = PixivResult.silentNone →
      (checkAndPushUpdates cfg env isManual db).2.1.filter (SubEvent.isWriteFor sub.uid)
        = []) := by
  have hred : checkAndPushUpdates cfg env isManual db
      = runSubs cfg env isManual (pre ++ sub :: post) db := by
    unfold checkAndPushUpdates; rw [hen, hbot, hsubs]; simp
  have hdbp : (runSubs cfg env isManual pre db).1 sub.uid = db sub.uid :=
    runSubs_db_other cfg env isManual pre db sub.uid hpre
  rw [hred, runSubs_append]
  simp only [runSubs]
  constructor
  · intro hr
    rw [processSub_new_render_ok cfg env isManual _ sub ill rest hu hch hil
        (by rw [hdbp]; exact hnew) hr]
    simp only [List.filter_append]
    rw [runSubs_filter_writes_other cfg env isManual pre db sub.uid hpre]
    rw [runSubs_filter_writes_other cfg env isManual post _ sub.uid hpost]
    rw [(filter_send_map (subRender cfg env ill.id) env.sendOk sub.channelIds).2.2 sub.uid]
    simp [List.filter, SubEvent.isWriteFor]
  · intro hr
    rw [processSub_new_render_none cfg env isManual _ sub ill rest hu hch hil
        (by rw [hdbp]; exact hnew) hr]
    simp only [List.filter_append]
    rw [runSubs_filter_writes_other cfg env isManual pre db sub.uid hpre]
    rw [runSubs_filter_writes_other cfg env isManual post _ sub.uid hpost]
    simp

/-- C1 counterexample: a brand-new latest artwork (`isNew` holds), but
content generation fails — the cycle performs NO persistence write at
all (the trace is empty and the record stays absent), falsifying
"exactly one write regardless of the outcome of content generation". -/
theorem new_artwork_write_skipped_on_render_failure :
    envC1.userIllusts "11" = some [illu50] ∧
    dbEmpty "11" = none ∧
    (checkAndPushUpdates cfgSubA envC1 false dbEmpty).2.1 = [] ∧
    (checkAndPushUpdates cfgSubA envC1 false dbEmpty).1 "11" = none := by
  refine ⟨rfl, rfl, ?_, ?_⟩ <;> decide

/-- C1 witness: with content generation succeeding, the cycle writes
exactly once for the author, delivery outcomes notwithstanding. -/
theorem new_artwork_single_write_witness :
    (checkAndPushUpdates cfgSubB envOlder false dbEmpty).2.1.filter
        (SubEvent.isWriteFor subB.uid)
      = [SubEvent.write subB.uid (Nat.repr illu50.id)] :=
  (new_artwork_single_write cfgSubB envOlder false dbEmpty [] [] subB illu50 []
    rfl rfl rfl (by simp) (by simp) (by decide) (by decide) rfl (by decide)).1 (by decide)

/-! ## C4 — what the stored id can be overwritten with -/

/-- C4 (amended): any persistence write the cycle performs for a
tracked author carries exactly the API's head artwork id for that
author and happens only when it differs from the stored id (never an
equal id); and the startup reconciliation pass never overwrites an
existing record.  (No monotonicity holds: the differing id may be
numerically older, see the counterexample.) -/
theorem lastSeen_only_api_observed (cfg : Config) (env : SubEnv) (m : Bool) (db : Db)
    (pre post : List Subscription) (sub : Subscription) (ill : Illust) (rest : List Illust)
    (hen : cfg.enableSubscription = true) (hbot : env.botOnline = true)
    (hsubs : cfg.subscriptions = pre ++ sub :: post)
    (hpre : ∀ s ∈ pre, s.uid ≠ sub.uid) (hpost : ∀ s ∈ post, s.uid ≠ sub.uid)
    (hil : env.userIllusts sub.uid = some (ill :: rest)) :
    (∀ v, SubEvent.write sub.uid v ∈ (checkAndPushUpdates cfg env m db).2.1 →
      v = Nat.repr ill.id ∧ db sub.uid ≠ some v) ∧
    (∀ u, db u ≠ none → initSubscriptions env cfg.subscriptions db u = db u) := by
  have hred : checkAndPushUpdates cfg env m db
      = runSubs cfg env m (pre ++ sub :: post) db := by
    unfold checkAndPushUpdates; rw [hen, hbot, hsubs]; simp
  constructor
  · intro v hv
    rw [hred, runSubs_append] at hv
    simp only [runSubs, List.mem_append] at hv
    rcases hv with hv | hv | hv
    · obtain ⟨s, hs, hus⟩ := runSubs_write_uid_mem cfg env m pre db sub.uid v hv
      exact absurd hus.symm (hpre s hs)
    · obtain ⟨_, ill2, rest2, hil2, hv2, hne2⟩ :=
        processSub_write_mem cfg env m _ sub sub.uid v hv
      rw [hil] at hil2
      obtain ⟨h1, _⟩ := List.cons.inj (Option.some.inj hil2).symm
      subst h1
      refine ⟨hv2, ?_⟩
      rw [runSubs_db_other cfg env m pre db sub.uid hpre] at hne2
      exact hne2
    · obtain ⟨s, hs, hus⟩ := runSubs_write_uid_mem cfg env m post _ sub.uid v hv
      exact absurd hus.symm (hpost s hs)
  · intro u hu
    exact initSubscriptions_preserves env cfg.subscriptions db u hu

/-- C4 counterexample: the stored id is "100"; the API's newest-first
head is artwork 50; the cycle overwrites the record with "50" — an id
numerically OLDER than the stored one, falsifying "never with an older
or equal id". -/
theorem lastSeen_can_move_backward :
    dbOld "7" = some "100" ∧
    envOlder.userIllusts "7" = some [illu50] ∧
    (checkAndPushUpdates cfgSubB envOlder false dbOld).1 "7" = some "50" ∧
    (50 : Nat) < 100 := by
  refine ⟨rfl, rfl, ?_, by decide⟩
  decide

/-- C4 witness: the amended theorem applied to the concrete
counterexample cycle — the written id is the API-observed one and
differs from what was stored. -/
theorem lastSeen_only_api_observed_witness :
    ("50" : String) = Nat.repr illu50.id ∧ dbOld "7" ≠ some "50" :=
  (lastSeen_only_api_observed cfgSubB envOlder false dbOld [] [] subB illu50 []
    rfl rfl rfl (by simp) (by simp) rfl).1 "50" (by decide)

/-! ## C7 — re-running a manual trigger with no new artwork -/

lemma runSubs_single (cfg : Config) (env : SubEnv) (m : Bool) (d : Db)
    (sub : Subscription) :
    runSubs cfg env m [sub] d = processSub cfg env m d sub := by
  simp [runSubs]

/-- C7: with a single tracked author, a constant upstream listing and
successful content generation, two consecutive manual triggers each
push the same content to every configured channel, while the two runs
together perform at most one persistence write. -/
theorem manual_retrigger_two_pushes_one_write (cfg : Config) (env : SubEnv) (db : Db)
    (sub : Subscription) (ill : Illust) (rest : List Illust)
    (hen : cfg.enableSubscription = true) (hbot : env.botOnline = true)
    (hsubs : cfg.subscriptions = [sub])
    (hu : sub.uid ≠ "") (hch : sub.channelIds ≠ [])
    (hil : env.userIllusts sub.uid = some (ill :: rest))
    (hr : subRender cfg env ill.id ≠ PixivResult.silentNone) :
    (checkAndPushUpdates cfg env true db).2.1.filter SubEvent.isSend
      = sub.channelIds.map
          (fun ch => SubEvent.send ch (subRender cfg env ill.id) (env.sendOk ch)) ∧
    (checkAndPushUpdates cfg env true
        (checkAndPushUpdates cfg env true db).1).2.1.filter SubEvent.isSend
      = sub.channelIds.map
          (fun ch => SubEvent.send ch (subRender cfg env ill.id) (env.sendOk ch)) ∧
    ((checkAndPushUpdates cfg env true db).2.1.filter SubEvent.isWrite).length
      + ((checkAndPushUpdates cfg env true
          (checkAndPushUpdates cfg env true db).1).2.1.filter SubEvent.isWrite).length
      ≤ 1 := by
  have hred : ∀ d : Db, checkAndPushUpdates cfg env true d = processSub cfg env true d sub := by
    intro d
    unfold checkAndPushUpdates
    rw [hen, hbot, hsubs]
    simp [runSubs_single]
  by_cases hdb : db sub.uid = some (Nat.repr ill.id)
  · have h1 := processSub_manual_not_new cfg env db sub ill rest hu hch hil hdb hr
    have hrun1 : checkAndPushUpdates cfg env true db
        = (db, sub.channelIds.map
            (fun ch => SubEvent.send ch (subRender cfg env ill.id) (env.sendOk ch)), 1) := by
      rw [hred db, h1]
    refine ⟨?_, ?_, ?_⟩
    · rw [hrun1]
      exact (filter_send_map (subRender cfg env ill.id) env.sendOk sub.channelIds).1
    · rw [hrun1]
      dsimp only
      rw [hred db, h1]
      exact (filter_send_map (subRender cfg env ill.id) env.sendOk sub.channelIds).1
    · rw [hrun1]
      dsimp only
      rw [hred db, h1]
      dsimp only
      rw [(filter_send_map (subRender cfg env ill.id) env.sendOk sub.channelIds).2.1]
      simp
  · have h1 := processSub_new_render_ok cfg env true db sub ill rest hu hch hil hdb hr
    have hdb2 : (dbUpsert db sub.uid (Nat.repr ill.id)) sub.uid = some (Nat.repr ill.id) :=
      dbUpsert_self db sub.uid (Nat.repr ill.id)
    have h2 := processSub_manual_not_new cfg env (dbUpsert db sub.uid (Nat.repr ill.id))
      sub ill rest hu hch hil hdb2 hr
    have hrun1 : checkAndPushUpdates cfg env true db
        = (dbUpsert db sub.uid (Nat.repr ill.id),
           sub.channelIds.map
             (fun ch => SubEvent.send ch (subRender cfg env ill.id) (env.sendOk ch))
             ++ [SubEvent.write sub.uid (Nat.repr ill.id)], 1) := by
      rw [hred db, h1]
    refine ⟨?_, ?_, ?_⟩
    · rw [hrun1]
      dsimp only
      rw [List.filter_append,
        (filter_send_map (subRender cfg env ill.id) env.sendOk sub.channelIds).1]
      simp [List.filter, SubEvent.isSend]
    · rw [hrun1]
      dsimp only
      rw [hred _, h2]
      exact (filter_send_map (subRender cfg env ill.id) env.sendOk sub.channelIds).1
    · rw [hrun1]
      dsimp only
      rw [hred _, h2]
      dsimp only
      rw [List.filter_append,
        (filter_send_map (subRender cfg env ill.id) env.sendOk sub.channelIds).2.1]
      simp [List.filter, SubEvent.isWrite]

/-- C7 witness: two concrete manual runs with the same latest artwork —
identical push lists, and one write in total (the first run seeds the
record). -/
theorem manual_retrigger_two_pushes_one_write_witness :
    (checkAndPushUpdates cfgSubB envOlder true dbEmpty).2.1.filter SubEvent.isSend
      = subB.channelIds.map
          (fun ch => SubEvent.send ch (subRender cfgSubB envOlder illu50.id)
            (envOlder.sendOk ch)) ∧
    (checkAndPushUpdates cfgSubB envOlder true
        (checkAndPushUpdates cfgSubB envOlder true dbEmpty).1).2.1.filter SubEvent.isSend
      = subB.channelIds.map
          (fun ch => SubEvent.send ch (subRender cfgSubB envOlder illu50.id)
            (envOlder.sendOk ch)) ∧
    ((checkAndPushUpdates cfgSubB envOlder true dbEmpty).2.1.filter SubEvent.isWrite).length
      + ((checkAndPushUpdates cfgSubB envOlder true
          (checkAndPushUpdates cfgSubB envOlder true dbEmpty).1).2.1.filter
            SubEvent.isWrite).length
      ≤ 1 :=
  manual_retrigger_two_pushes_one_write cfgSubB envOlder dbEmpty subB illu50 []
    rfl rfl rfl (by decide) (by decide) rfl (by decide)

end PixivParse
